import Mathlib

/-!
Shallow embedding of the tello_cpp_poc flight controller
(src/src/flight_controller.cpp) and of the relevant behaviour of its
collaborators, together with proofs of the specification claims.

Conventions:
* machine `int` values are modelled as `Int`, with the `std::stoi` range
  check made explicit;
* the single-threaded event-loop orchestration is modelled by threading an
  explicit state and a script of environment events (one event per
  bounded wait: a broker reply, a timeout, or a fatal connection error
  thrown from the channel error callback while the loop is pumped);
* the orchestrator model runs on the connected path (the constructor has
  connected, `wait_for_connection` succeeds); loss of the connection is
  modelled by the `connFatal` environment event.
-/

namespace TelloFC

/-- Configuration constants, mirroring `FlightControllerConfig` in
flight_controller.cpp (same fields, same default values). -/
structure FlightControllerConfig where
  takeoff_timeout : Nat := 1
  default_timeout : Nat := 1
  reconnect_delay_max : Nat := 16
  takeoff_completion_delay : Nat := 1
  command_interval : Nat := 2
  max_reconnect_attempts : Nat := 5
  max_command_retries : Nat := 3
  max_takeoff_attempts : Nat := 2
  min_battery_level : Int := 20
  min_height_after_takeoff : Int := 2
  min_distance : Int := 20
  max_distance : Int := 500
  min_angle : Int := 1
  max_angle : Int := 360
  square_side_distance : Nat := 20
  square_turn_angle : Nat := 90
deriving DecidableEq, Repr

/-- The configuration used by `main` (all defaults). -/
def defaultConfig : FlightControllerConfig := {}

/-- Whitespace characters skipped by `std::stoi` (C locale `isspace`). -/
def isSpaceChar (c : Char) : Bool :=
  c = ' ' || c = '\t' || c = '\n' || c = '\x0b' || c = '\x0c' || c = '\r'

/-- Value of a decimal digit string (most significant first). -/
def digitsToNat (ds : List Char) : Nat :=
  ds.foldl (fun acc c => acc * 10 + (c.toNat - 48)) 0

/-- Model of `std::stoi` on a character list: skip leading whitespace, an
optional sign, then the longest run of decimal digits; `none` models the
`std::invalid_argument` (no digits) and `std::out_of_range` (outside the
32-bit `int` range) exceptions, both caught by the callers. -/
def stoiChars (s : List Char) : Option Int :=
  let s1 := s.dropWhile isSpaceChar
  let signAndRest : Bool × List Char :=
    match s1 with
    | '-' :: rest => (true, rest)
    | '+' :: rest => (false, rest)
    | _ => (false, s1)
  let ds := signAndRest.2.takeWhile Char.isDigit
  if ds.isEmpty then none
  else
    let n : Int := Int.ofNat (digitsToNat ds)
    let v : Int := if signAndRest.1 then -n else n
    if v < -2147483648 ∨ 2147483647 < v then none else some v

/-- The six movement verbs checked by `validate_command`. -/
def isMovementVerb (s : String) : Bool :=
  s == "forward" || s == "back" || s == "left" || s == "right" ||
    s == "up" || s == "down"

/-- The two rotation verbs checked by `validate_command`. -/
def isRotationVerb (s : String) : Bool :=
  s == "cw" || s == "ccw"

/-- `cmd.find(' ')` followed by the two `substr` calls: split a character
list at the first space, or `none` when there is no space. -/
def splitAtFirstSpace : List Char → Option (List Char × List Char)
  | [] => none
  | c :: cs =>
    if c = ' ' then some ([], cs)
    else
      match splitAtFirstSpace cs with
      | none => none
      | some (a, b) => some (c :: a, b)

/-- `FlightController::validate_command` (flight_controller.cpp:158-189):
a command without a space passes; otherwise the text after the first
space must parse with `std::stoi`; movement verbs are range-checked
against the distance bounds, rotation verbs against the angle bounds,
and any other verb passes with no range check. -/
def validate_command (cfg : FlightControllerConfig) (cmd : String) : Bool :=
  match splitAtFirstSpace cmd.data with
  | none => true
  | some (verbChars, paramChars) =>
    match stoiChars paramChars with
    | none => false
    | some value =>
      let command := String.mk verbChars
      if isMovementVerb command then
        if value < cfg.min_distance ∨ cfg.max_distance < value then false
        else true
      else if isRotationVerb command then
        if value < cfg.min_angle ∨ cfg.max_angle < value then false
        else true
      else true

/-- `FlightController::ConnectionState`. -/
inductive ConnState
  | DISCONNECTED
  | CONNECTING
  | CONNECTED
deriving DecidableEq, Repr

/-- The mutable fields of `FlightController` relevant to the claims:
connection state, whether `channel_` is non-null, the local
`command_queue_`, the `last_response_` / `response_received_` pair, the
`reconnect_attempts_` counter and the `shutdown_` flag. -/
structure FCState where
  conn_state : ConnState
  hasChannel : Bool
  command_queue : List String
  last_response : String
  response_received : Bool
  reconnect_attempts : Nat
  shutdownFlag : Bool
deriving DecidableEq, Repr

/-- State after the constructor has connected: the orchestrator model runs
on the connected path. -/
def initState : FCState :=
  { conn_state := ConnState.CONNECTED
    hasChannel := true
    command_queue := []
    last_response := ""
    response_received := false
    reconnect_attempts := 0
    shutdownFlag := false }

/-- `FlightController::publish_command` (flight_controller.cpp:364-388).
`pubOk` models the boolean returned by `channel_->publish`. Returns the
new state and the list of commands actually handed to the broker (empty
or a singleton). An invalid command is neither published nor queued; the
reply is synthesized locally. -/
def publish_command (cfg : FlightControllerConfig) (pubOk : String → Bool)
    (st : FCState) (cmd : String) : FCState × List String :=
  if validate_command cfg cmd = false then
    ({ st with last_response := "invalid command", response_received := true }, [])
  else if st.conn_state ≠ ConnState.CONNECTED ∨ st.hasChannel = false then
    ({ st with command_queue := st.command_queue ++ [cmd] }, [])
  else if pubOk cmd then (st, [cmd])
  else ({ st with command_queue := st.command_queue ++ [cmd] }, [])

/-- The while-loop body of `retry_queued_commands`: repeatedly publish the
queue head, dropping it on success, stopping at the first failure.
Returns (published commands in order, remaining queue). -/
def drainLoop (pubOk : String → Bool) : List String → List String × List String
  | [] => ([], [])
  | c :: cs =>
    if pubOk c then
      let pr := drainLoop pubOk cs
      (c :: pr.1, pr.2)
    else ([], c :: cs)

/-- `FlightController::retry_queued_commands` (flight_controller.cpp:391-405).
The loop guard re-checks the connection state, which no step of the drain
can change (publishing does not pump the event loop), so it is hoisted. -/
def retry_queued_commands (pubOk : String → Bool) (st : FCState) :
    FCState × List String :=
  if st.conn_state = ConnState.CONNECTED ∧ st.hasChannel = true then
    let pr := drainLoop pubOk st.command_queue
    ({ st with command_queue := pr.2 }, pr.1)
  else (st, [])

/-- The `onReady` handler (flight_controller.cpp:111-116): mark the
connection `CONNECTED`, reset the reconnect-attempt counter to zero, and
drain the outbound queue. It performs no queue declaration. -/
def channel_onReady (pubOk : String → Bool) (st : FCState) :
    FCState × List String :=
  retry_queued_commands pubOk
    { st with conn_state := ConnState.CONNECTED, reconnect_attempts := 0 }

/-- The synchronous effect of `connect_to_rabbitmq` (flight_controller.cpp:62-79
up to the handler registrations): an early return when already connected,
otherwise the state becomes `CONNECTING` and a fresh channel exists
(`ctorOk = false` models the `TcpConnection` constructor throwing, which
leaves the state `DISCONNECTED`). The `onReady` transition happens only
later, when the event loop is pumped. -/
def connect_sync (ctorOk : Bool) (st : FCState) : FCState :=
  if st.conn_state = ConnState.CONNECTED then st
  else if ctorOk then
    { st with conn_state := ConnState.CONNECTING, hasChannel := true }
  else { st with conn_state := ConnState.DISCONNECTED }

/-- Result of the channel `onError` handler. -/
inductive OnErrorResult
  | ignored (st : FCState)
  | fatalExit
  | retryScheduled (delay : Nat) (redeclared : Bool) (st : FCState)
deriving DecidableEq, Repr

/-- The `onError` handler (flight_controller.cpp:81-109): during shutdown
the error is ignored; otherwise the connection is torn down, a
`runtime_error` is thrown once `reconnect_attempts_ >= max_reconnect_attempts`
(`fatalExit`), and otherwise the handler sleeps
`min(reconnect_delay_max, 2^attempts)` seconds, increments the counter,
re-initiates the connection, and calls `declare_queues()` only if the
state is already `CONNECTED` at that point (the `redeclared` flag). The
source computes the delay as `static_cast<int>(std::pow(2, attempts))`,
exact in `Nat` arithmetic for every attempt count the guard admits. -/
def channel_onError (cfg : FlightControllerConfig) (ctorOk : Bool)
    (st : FCState) : OnErrorResult :=
  if st.shutdownFlag = true then .ignored st
  else
    let st1 := { st with conn_state := ConnState.DISCONNECTED, hasChannel := false }
    if cfg.max_reconnect_attempts ≤ st1.reconnect_attempts then .fatalExit
    else
      let delay := min cfg.reconnect_delay_max (2 ^ st1.reconnect_attempts)
      let st2 := { st1 with reconnect_attempts := st1.reconnect_attempts + 1 }
      let st3 := connect_sync ctorOk st2
      .retryScheduled delay (decide (st3.conn_state = ConnState.CONNECTED)) st3

/-- The backoff delay of an `onError` result, when one was scheduled. -/
def OnErrorResult.delayOf : OnErrorResult → Option Nat
  | .retryScheduled d _ _ => some d
  | _ => none

/-- The reconnect-attempt counter after an `onError` result, when a retry
was scheduled. -/
def OnErrorResult.attemptsAfter : OnErrorResult → Option Nat
  | .retryScheduled _ _ st => some st.reconnect_attempts
  | _ => none

/-- Whether the `onError` handler reached its `declare_queues()` call. -/
def OnErrorResult.redeclaredFlag : OnErrorResult → Option Bool
  | .retryScheduled _ b _ => some b
  | _ => none

/-- What the environment does while one bounded response wait pumps the
event loop: deliver a broker reply, deliver nothing before the deadline,
or raise the fatal reconnect-exhausted `runtime_error` from inside the
channel error callback. -/
inductive EnvEvent
  | reply (s : String)
  | timeout
  | connFatal
deriving DecidableEq, Repr

/-- Observation of one publish-and-wait block. -/
inductive WaitOutcome
  | got (s : String)
  | noResponse
  | raised
deriving DecidableEq, Repr

/-- Result of one publish-and-wait block: the observation, the state, the
remaining environment script and the commands published to the broker. -/
structure ExchangeRes where
  outcome : WaitOutcome
  st : FCState
  script : List EnvEvent
  sent : List String
deriving DecidableEq, Repr

/-- One publish-and-wait block, the pattern shared by `issue_land_command`,
`pre_flight_check` and `run` (e.g. flight_controller.cpp:440-453):
`publish_command(cmd);` then `response_received_ = false;
last_response_.clear();` and then a deadline-bounded poll of the event
loop. Note that the clearing happens after `publish_command`, so a reply
synthesized there is discarded. The wait observes the next environment
event; an exhausted script behaves like a timeout. `channel_->publish`
succeeding is modelled by the constant-true publish oracle, matching a
healthy broker buffer. -/
def command_exchange (cfg : FlightControllerConfig) (st : FCState)
    (script : List EnvEvent) (cmd : String) : ExchangeRes :=
  let pr := publish_command cfg (fun _ => true) st cmd
  let st2 := { pr.1 with response_received := false, last_response := "" }
  match script with
  | [] => ⟨WaitOutcome.noResponse, st2, [], pr.2⟩
  | EnvEvent.reply s :: rest =>
    ⟨WaitOutcome.got s, { st2 with response_received := true, last_response := s },
      rest, pr.2⟩
  | EnvEvent.timeout :: rest => ⟨WaitOutcome.noResponse, st2, rest, pr.2⟩
  | EnvEvent.connFatal :: rest => ⟨WaitOutcome.raised, st2, rest, pr.2⟩

/-- The landing acceptance test (flight_controller.cpp:230): `"ok"` or
`"error"` both confirm the landing. -/
def landReplyOk (s : String) : Bool :=
  s == "ok" || s == "error"

/-- The per-command success test of the execution loop
(flight_controller.cpp:456): `"ok"`, or `"error"` for the `land` command
only. -/
def isSuccessReply (cmd s : String) : Bool :=
  s == "ok" || (cmd == "land" && s == "error")

/-- The unrecoverable-reply test of the execution loop
(flight_controller.cpp:458). -/
def isUnrecoverableReply (s : String) : Bool :=
  s == "out of range" || s == "invalid command"

/-- Result of a controller routine: its boolean return value, whether a
`runtime_error` is propagating instead, the state, the remaining script
and the published commands. -/
structure CallRes where
  ok : Bool
  raised : Bool
  st : FCState
  script : List EnvEvent
  sent : List String
deriving DecidableEq, Repr

/-- `FlightController::issue_land_command` (flight_controller.cpp:208-237):
publish `land`, wait, and accept `"ok"` or `"error"` as success. -/
def issue_land_command (cfg : FlightControllerConfig) (st : FCState)
    (script : List EnvEvent) : CallRes :=
  let r := command_exchange cfg st script "land"
  match r.outcome with
  | WaitOutcome.raised => ⟨false, true, r.st, r.script, r.sent⟩
  | WaitOutcome.noResponse => ⟨false, false, r.st, r.script, r.sent⟩
  | WaitOutcome.got s => ⟨landReplyOk s, false, r.st, r.script, r.sent⟩

/-- One iteration of the takeoff retry loop of `pre_flight_check`
(flight_controller.cpp:278-310): publish `takeoff` and wait; on `"ok"`
the loop exits successfully; otherwise the attempt budget is decremented
(`n` is the budget after the decrement) and, when budget remains, a
landing command is issued (its result ignored) before the next iteration
(`recurse`, the rest of the loop). -/
def takeoff_loop_body (cfg : FlightControllerConfig) (n : Nat)
    (recurse : FCState → List EnvEvent → CallRes)
    (st : FCState) (script : List EnvEvent) : CallRes :=
  match command_exchange cfg st script "takeoff" with
  | ⟨WaitOutcome.raised, st1, sc1, sent1⟩ => ⟨false, true, st1, sc1, sent1⟩
  | ⟨WaitOutcome.got s, st1, sc1, sent1⟩ =>
    if s = "ok" then ⟨true, false, st1, sc1, sent1⟩
    else if n = 0 then ⟨false, false, st1, sc1, sent1⟩
    else
      let l := issue_land_command cfg st1 sc1
      if l.raised then ⟨false, true, l.st, l.script, sent1 ++ l.sent⟩
      else
        let k := recurse l.st l.script
        ⟨k.ok, k.raised, k.st, k.script, sent1 ++ l.sent ++ k.sent⟩
  | ⟨WaitOutcome.noResponse, st1, sc1, sent1⟩ =>
    if n = 0 then ⟨false, false, st1, sc1, sent1⟩
    else
      let l := issue_land_command cfg st1 sc1
      if l.raised then ⟨false, true, l.st, l.script, sent1 ++ l.sent⟩
      else
        let k := recurse l.st l.script
        ⟨k.ok, k.raised, k.st, k.script, sent1 ++ l.sent ++ k.sent⟩

/-- The takeoff retry loop of `pre_flight_check`
(flight_controller.cpp:276-310), with the remaining attempt budget as the
first argument; a zero budget leaves the loop with
`takeoff_success == false`. -/
def takeoff_loop (cfg : FlightControllerConfig) :
    Nat → FCState → List EnvEvent → CallRes
  | 0, st, script => ⟨false, false, st, script, []⟩
  | n + 1, st, script => takeoff_loop_body cfg n (takeoff_loop cfg n) st script

/-- `FlightController::pre_flight_check` (flight_controller.cpp:240-361):
battery query and threshold, takeoff with retries (with a final landing
command when all attempts failed), then the height query and threshold
(with a landing command on every failure path after takeoff). -/
def pre_flight_check (cfg : FlightControllerConfig) (st : FCState)
    (script : List EnvEvent) : CallRes :=
  let b := command_exchange cfg st script "battery?"
  match b.outcome with
  | WaitOutcome.raised => ⟨false, true, b.st, b.script, b.sent⟩
  | WaitOutcome.noResponse => ⟨false, false, b.st, b.script, b.sent⟩
  | WaitOutcome.got s =>
    match stoiChars s.data with
    | none => ⟨false, false, b.st, b.script, b.sent⟩
    | some lvl =>
      if lvl < cfg.min_battery_level then ⟨false, false, b.st, b.script, b.sent⟩
      else
        let t := takeoff_loop cfg cfg.max_takeoff_attempts b.st b.script
        if t.raised then ⟨false, true, t.st, t.script, b.sent ++ t.sent⟩
        else if t.ok = false then
          let l := issue_land_command cfg t.st t.script
          ⟨false, l.raised, l.st, l.script, b.sent ++ t.sent ++ l.sent⟩
        else
          let h := command_exchange cfg t.st t.script "height?"
          match h.outcome with
          | WaitOutcome.raised =>
            ⟨false, true, h.st, h.script, b.sent ++ t.sent ++ h.sent⟩
          | WaitOutcome.noResponse =>
            let l := issue_land_command cfg h.st h.script
            ⟨false, l.raised, l.st, l.script, b.sent ++ t.sent ++ h.sent ++ l.sent⟩
          | WaitOutcome.got hs =>
            match stoiChars hs.data with
            | none =>
              let l := issue_land_command cfg h.st h.script
              ⟨false, l.raised, l.st, l.script, b.sent ++ t.sent ++ h.sent ++ l.sent⟩
            | some ht =>
              if ht < cfg.min_height_after_takeoff then
                let l := issue_land_command cfg h.st h.script
                ⟨false, l.raised, l.st, l.script, b.sent ++ t.sent ++ h.sent ++ l.sent⟩
              else ⟨true, false, h.st, h.script, b.sent ++ t.sent ++ h.sent⟩

/-- The retry loop around one command of the flight pattern
(flight_controller.cpp:430-487), with the remaining retry budget as the
first argument. Every failure path inside the loop issues a landing
command and returns false from `run`; an unrecoverable reply does so
without consuming the retry budget. A zero budget means the loop body
never runs and the enclosing for-loop simply advances, which is the
`ok := true` base case. -/
def exec_command_loop (cfg : FlightControllerConfig) (cmd : String) :
    Nat → FCState → List EnvEvent → CallRes
  | 0, st, script => ⟨true, false, st, script, []⟩
  | n + 1, st, script =>
    match command_exchange cfg st script cmd with
    | ⟨WaitOutcome.raised, st1, sc1, sent1⟩ => ⟨false, true, st1, sc1, sent1⟩
    | ⟨WaitOutcome.got s, st1, sc1, sent1⟩ =>
      if isSuccessReply cmd s then ⟨true, false, st1, sc1, sent1⟩
      else if isUnrecoverableReply s then
        let l := issue_land_command cfg st1 sc1
        ⟨false, l.raised, l.st, l.script, sent1 ++ l.sent⟩
      else if n = 0 then
        let l := issue_land_command cfg st1 sc1
        ⟨false, l.raised, l.st, l.script, sent1 ++ l.sent⟩
      else
        let k := exec_command_loop cfg cmd n st1 sc1
        ⟨k.ok, k.raised, k.st, k.script, sent1 ++ k.sent⟩
    | ⟨WaitOutcome.noResponse, st1, sc1, sent1⟩ =>
      if n = 0 then
        let l := issue_land_command cfg st1 sc1
        ⟨false, l.raised, l.st, l.script, sent1 ++ l.sent⟩
      else
        let k := exec_command_loop cfg cmd n st1 sc1
        ⟨k.ok, k.raised, k.st, k.script, sent1 ++ k.sent⟩

/-- The for-loop of `run` over the flight pattern
(flight_controller.cpp:429-493). -/
def run_sequence (cfg : FlightControllerConfig) :
    List String → FCState → List EnvEvent → CallRes
  | [], st, script => ⟨true, false, st, script, []⟩
  | cmd :: rest, st, script =>
    let r := exec_command_loop cfg cmd cfg.max_command_retries st script
    if r.raised then ⟨false, true, r.st, r.script, r.sent⟩
    else if r.ok then
      let k := run_sequence cfg rest r.st r.script
      ⟨k.ok, k.raised, k.st, k.script, r.sent ++ k.sent⟩
    else ⟨false, false, r.st, r.script, r.sent⟩

/-- The fixed flight pattern of `run` (flight_controller.cpp:417-427). -/
def flight_commands (cfg : FlightControllerConfig) : List String :=
  [ "forward " ++ toString cfg.square_side_distance,
    "cw " ++ toString cfg.square_turn_angle,
    "forward " ++ toString cfg.square_side_distance,
    "cw " ++ toString cfg.square_turn_angle,
    "forward " ++ toString cfg.square_side_distance,
    "cw " ++ toString cfg.square_turn_angle,
    "forward " ++ toString cfg.square_side_distance,
    "cw " ++ toString cfg.square_turn_angle,
    "land" ]

/-- `FlightController::run` (flight_controller.cpp:408-497): pre-flight
checks (with a landing command and failure return when they fail), then
the command sequence. -/
def run (cfg : FlightControllerConfig) (st : FCState)
    (script : List EnvEvent) : CallRes :=
  let p := pre_flight_check cfg st script
  if p.raised then ⟨false, true, p.st, p.script, p.sent⟩
  else if p.ok = false then
    let l := issue_land_command cfg p.st p.script
    ⟨false, l.raised, l.st, l.script, p.sent ++ l.sent⟩
  else
    let s := run_sequence cfg (flight_commands cfg) p.st p.script
    ⟨s.ok, s.raised, s.st, s.script, p.sent ++ s.sent⟩

/-- `main` (flight_controller.cpp:548-563): a propagating exception is
caught and turned into exit status 1; otherwise the function falls
through to `return 0` whether or not `run()` succeeded, after printing
the corresponding message. The catch block publishes nothing, so the
command trace is exactly the trace of `run`. -/
def main_model (cfg : FlightControllerConfig) (script : List EnvEvent) :
    Nat × List String :=
  let r := run cfg initState script
  if r.raised then (1, r.sent) else (0, r.sent)

/-! ## Supporting lemmas -/

theorem mk_data (s : String) : String.mk s.data = s := rfl

theorem data_append_space (v p : String) :
    (v ++ " " ++ p).data = v.data ++ ' ' :: p.data := by
  simp [String.data_append]

theorem splitAtFirstSpace_of_not_mem (l : List Char) (h : ' ' ∉ l) :
    splitAtFirstSpace l = none := by
  induction l with
  | nil => rfl
  | cons c cs ih =>
    have hc : ¬(c = ' ') := fun hh => h (hh ▸ List.mem_cons_self c cs)
    have hcs : ' ' ∉ cs := fun hm => h (List.mem_cons_of_mem c hm)
    simp [splitAtFirstSpace, hc, ih hcs]

theorem splitAtFirstSpace_append (v p : List Char) (hv : ' ' ∉ v) :
    splitAtFirstSpace (v ++ ' ' :: p) = some (v, p) := by
  induction v with
  | nil => simp [splitAtFirstSpace]
  | cons c cs ih =>
    have hc : ¬(c = ' ') := fun hh => hv (hh ▸ List.mem_cons_self c cs)
    have hcs : ' ' ∉ cs := fun hm => hv (List.mem_cons_of_mem c hm)
    simp [splitAtFirstSpace, hc, ih hcs]

theorem isMovementVerb_eq (v : String) (h : isMovementVerb v = true) :
    v = "forward" ∨ v = "back" ∨ v = "left" ∨ v = "right" ∨
      v = "up" ∨ v = "down" := by
  have h' := h
  simp only [isMovementVerb, Bool.or_eq_true, beq_iff_eq] at h'
  tauto

theorem isRotationVerb_eq (v : String) (h : isRotationVerb v = true) :
    v = "cw" ∨ v = "ccw" := by
  simpa [isRotationVerb, Bool.or_eq_true, beq_iff_eq] using h

theorem isMovementVerb_no_space (v : String) (h : isMovementVerb v = true) :
    ' ' ∉ v.data := by
  rcases isMovementVerb_eq v h with h'|h'|h'|h'|h'|h' <;> subst h' <;> decide

theorem isRotationVerb_no_space (v : String) (h : isRotationVerb v = true) :
    ' ' ∉ v.data := by
  rcases isRotationVerb_eq v h with h'|h' <;> subst h' <;> decide

theorem isMovementVerb_of_rotation (v : String) (h : isRotationVerb v = true) :
    isMovementVerb v = false := by
  rcases isRotationVerb_eq v h with h'|h' <;> subst h' <;> decide

/-- A command with no space always validates. -/
theorem validate_command_no_space (cfg : FlightControllerConfig)
    (cmd : String) (h : ' ' ∉ cmd.data) :
    validate_command cfg cmd = true := by
  simp [validate_command, splitAtFirstSpace_of_not_mem cmd.data h]

/-- Shape of `validate_command` on a split command. -/
theorem validate_command_split (cfg : FlightControllerConfig) (v p : String)
    (hv : ' ' ∉ v.data) :
    validate_command cfg (v ++ " " ++ p) =
      match stoiChars p.data with
      | none => false
      | some value =>
        if isMovementVerb v then
          if value < cfg.min_distance ∨ cfg.max_distance < value then false
          else true
        else if isRotationVerb v then
          if value < cfg.min_angle ∨ cfg.max_angle < value then false
          else true
        else true := by
  rw [validate_command, data_append_space,
    splitAtFirstSpace_append v.data p.data hv]

theorem publish_command_preserves (cfg : FlightControllerConfig)
    (pubOk : String → Bool) (st : FCState) (cmd : String) :
    ((publish_command cfg pubOk st cmd).1).conn_state = st.conn_state ∧
    ((publish_command cfg pubOk st cmd).1).hasChannel = st.hasChannel := by
  unfold publish_command
  repeat' split
  all_goals simp

theorem command_exchange_preserves (cfg : FlightControllerConfig)
    (st : FCState) (script : List EnvEvent) (cmd : String) :
    ((command_exchange cfg st script cmd).st).conn_state = st.conn_state ∧
    ((command_exchange cfg st script cmd).st).hasChannel = st.hasChannel := by
  have hp := publish_command_preserves cfg (fun _ => true) st cmd
  unfold command_exchange
  rcases script with _ | ⟨e, rest⟩
  · simpa using hp
  · cases e <;> simpa using hp

theorem issue_land_command_preserves (cfg : FlightControllerConfig)
    (st : FCState) (script : List EnvEvent) :
    ((issue_land_command cfg st script).st).conn_state = st.conn_state ∧
    ((issue_land_command cfg st script).st).hasChannel = st.hasChannel := by
  have h := command_exchange_preserves cfg st script "land"
  unfold issue_land_command
  rcases hce : command_exchange cfg st script "land" with ⟨out, st1, sc1, sent1⟩
  rw [hce] at h
  cases out <;> simpa using h

/-- With the connection ready, a valid command is published by its
exchange. -/
theorem command_exchange_sent (cfg : FlightControllerConfig) (st : FCState)
    (script : List EnvEvent) (cmd : String)
    (hc : st.conn_state = ConnState.CONNECTED) (hch : st.hasChannel = true)
    (hv : validate_command cfg cmd = true) :
    (command_exchange cfg st script cmd).sent = [cmd] := by
  have hp : publish_command cfg (fun _ => true) st cmd = (st, [cmd]) := by
    simp [publish_command, hv, hc, hch]
  unfold command_exchange
  rcases script with _ | ⟨e, rest⟩
  · simp [hp]
  · cases e <;> simp [hp]

theorem issue_land_command_sent (cfg : FlightControllerConfig) (st : FCState)
    (script : List EnvEvent) (hc : st.conn_state = ConnState.CONNECTED)
    (hch : st.hasChannel = true) :
    (issue_land_command cfg st script).sent = ["land"] := by
  have hv : validate_command cfg "land" = true :=
    validate_command_no_space cfg "land" (by decide)
  have hs := command_exchange_sent cfg st script "land" hc hch hv
  unfold issue_land_command
  rcases hce : command_exchange cfg st script "land" with ⟨out, st1, sc1, sent1⟩
  rw [hce] at hs
  cases out <;> simpa using hs

theorem takeoff_loop_body_preserves (cfg : FlightControllerConfig) (n : Nat)
    (recurse : FCState → List EnvEvent → CallRes) (st : FCState)
    (script : List EnvEvent)
    (hrec : ∀ st' sc', ((recurse st' sc').st).conn_state = st'.conn_state ∧
      ((recurse st' sc').st).hasChannel = st'.hasChannel) :
    ((takeoff_loop_body cfg n recurse st script).st).conn_state = st.conn_state ∧
    ((takeoff_loop_body cfg n recurse st script).st).hasChannel = st.hasChannel := by
  have hp := command_exchange_preserves cfg st script "takeoff"
  unfold takeoff_loop_body
  rcases hce : command_exchange cfg st script "takeoff" with ⟨out, st1, sc1, sent1⟩
  rw [hce] at hp
  dsimp at hp
  have hland := issue_land_command_preserves cfg st1 sc1
  have hrec' := hrec (issue_land_command cfg st1 sc1).st
    (issue_land_command cfg st1 sc1).script
  cases out
  case raised => simpa using hp
  case got s =>
    by_cases hok : s = "ok"
    · simpa [hok] using hp
    · by_cases hn : n = 0
      · simpa [hok, hn] using hp
      · by_cases hlr : (issue_land_command cfg st1 sc1).raised = true
        · simp only [hok, hn, hlr]
          dsimp
          exact ⟨hland.1.trans hp.1, hland.2.trans hp.2⟩
        · simp only [Bool.not_eq_true] at hlr
          simp only [hok, hn, hlr]
          dsimp
          exact ⟨hrec'.1.trans (hland.1.trans hp.1),
            hrec'.2.trans (hland.2.trans hp.2)⟩
  case noResponse =>
    by_cases hn : n = 0
    · simpa [hn] using hp
    · by_cases hlr : (issue_land_command cfg st1 sc1).raised = true
      · simp only [hn, hlr]
        dsimp
        exact ⟨hland.1.trans hp.1, hland.2.trans hp.2⟩
      · simp only [Bool.not_eq_true] at hlr
        simp only [hn, hlr]
        dsimp
        exact ⟨hrec'.1.trans (hland.1.trans hp.1),
          hrec'.2.trans (hland.2.trans hp.2)⟩

theorem takeoff_loop_preserves (cfg : FlightControllerConfig) :
    ∀ n (st : FCState) (script : List EnvEvent),
      ((takeoff_loop cfg n st script).st).conn_state = st.conn_state ∧
      ((takeoff_loop cfg n st script).st).hasChannel = st.hasChannel := by
  intro n
  induction n with
  | zero => intro st script; exact ⟨rfl, rfl⟩
  | succ m ih =>
    intro st script
    exact takeoff_loop_body_preserves cfg m (takeoff_loop cfg m) st script ih

/-- Shape of the command trace of one takeoff-loop iteration: when no
exception propagates, the trace alternates `takeoff` and `land` and ends
with a `takeoff` (each failed attempt that is retried lands first). -/
theorem takeoff_loop_body_shape (cfg : FlightControllerConfig) (n : Nat)
    (recurse : FCState → List EnvEvent → CallRes) (st : FCState)
    (script : List EnvEvent)
    (hc : st.conn_state = ConnState.CONNECTED) (hch : st.hasChannel = true)
    (hrec : n ≠ 0 → ∀ st' sc', st'.conn_state = ConnState.CONNECTED →
      st'.hasChannel = true → (recurse st' sc').raised = false →
      ∃ k, (recurse st' sc').sent =
        (List.replicate k ["takeoff", "land"]).flatten ++ ["takeoff"])
    (hr : (takeoff_loop_body cfg n recurse st script).raised = false) :
    ∃ k, (takeoff_loop_body cfg n recurse st script).sent =
      (List.replicate k ["takeoff", "land"]).flatten ++ ["takeoff"] := by
  have hv : validate_command cfg "takeoff" = true :=
    validate_command_no_space cfg "takeoff" (by decide)
  unfold takeoff_loop_body at hr ⊢
  revert hr
  rcases hce : command_exchange cfg st script "takeoff" with ⟨out, st1, sc1, sent1⟩
  intro hr
  have hsent : sent1 = ["takeoff"] := by
    have h2 := command_exchange_sent cfg st script "takeoff" hc hch hv
    rw [hce] at h2
    exact h2
  have hc1 : st1.conn_state = ConnState.CONNECTED := by
    have h2 := (command_exchange_preserves cfg st script "takeoff").1
    rw [hce] at h2
    exact h2.trans hc
  have hch1 : st1.hasChannel = true := by
    have h2 := (command_exchange_preserves cfg st script "takeoff").2
    rw [hce] at h2
    exact h2.trans hch
  have hlandp := issue_land_command_preserves cfg st1 sc1
  have hlands := issue_land_command_sent cfg st1 sc1 hc1 hch1
  cases out
  case raised => simp at hr
  case got s =>
    by_cases hok : s = "ok"
    · exact ⟨0, by simp [hok, hsent]⟩
    · by_cases hn : n = 0
      · exact ⟨0, by simp [hok, hn, hsent]⟩
      · by_cases hlr : (issue_land_command cfg st1 sc1).raised = true
        · simp only [hok, hn, hlr] at hr
          dsimp at hr
          simp at hr
        · simp only [Bool.not_eq_true] at hlr
          simp only [hok, hn, hlr] at hr ⊢
          dsimp at hr ⊢
          have hcl : ((issue_land_command cfg st1 sc1).st).conn_state =
              ConnState.CONNECTED := hlandp.1.trans hc1
          have hchl : ((issue_land_command cfg st1 sc1).st).hasChannel = true :=
            hlandp.2.trans hch1
          obtain ⟨k, hk⟩ := hrec hn _ _ hcl hchl hr
          refine ⟨k + 1, ?_⟩
          rw [hsent, hlands, hk]
          simp [List.replicate_succ, List.append_assoc]
  case noResponse =>
    by_cases hn : n = 0
    · exact ⟨0, by simp [hn, hsent]⟩
    · by_cases hlr : (issue_land_command cfg st1 sc1).raised = true
      · simp only [hn, hlr] at hr
        dsimp at hr
        simp at hr
      · simp only [Bool.not_eq_true] at hlr
        simp only [hn, hlr] at hr ⊢
        dsimp at hr ⊢
        have hcl : ((issue_land_command cfg st1 sc1).st).conn_state =
            ConnState.CONNECTED := hlandp.1.trans hc1
        have hchl : ((issue_land_command cfg st1 sc1).st).hasChannel = true :=
          hlandp.2.trans hch1
        obtain ⟨k, hk⟩ := hrec hn _ _ hcl hchl hr
        refine ⟨k + 1, ?_⟩
        rw [hsent, hlands, hk]
        simp [List.replicate_succ, List.append_assoc]

/-- Shape of the whole takeoff loop's command trace (at least one attempt
in the budget, no exception): `(takeoff land)* takeoff`. -/
theorem takeoff_loop_shape (cfg : FlightControllerConfig) :
    ∀ n (st : FCState) (script : List EnvEvent),
      st.conn_state = ConnState.CONNECTED → st.hasChannel = true →
      (takeoff_loop cfg (n + 1) st script).raised = false →
      ∃ k, (takeoff_loop cfg (n + 1) st script).sent =
        (List.replicate k ["takeoff", "land"]).flatten ++ ["takeoff"] := by
  intro n
  induction n with
  | zero =>
    intro st script hc hch hr
    exact takeoff_loop_body_shape cfg 0 (takeoff_loop cfg 0) st script hc hch
      (fun h => absurd rfl h) hr
  | succ m ih =>
    intro st script hc hch hr
    exact takeoff_loop_body_shape cfg (m + 1) (takeoff_loop cfg (m + 1))
      st script hc hch (fun _ st' sc' => ih st' sc') hr

/-! ## Claim theorems -/

/-- C1: For every command string of the form `verb argument`: with a
movement verb (forward, back, left, right, up, down) validation passes
iff `min_distance ≤ argument ≤ max_distance`; with a rotation verb
(cw, ccw) validation passes iff `min_angle ≤ argument ≤ max_angle`; a
command consisting of a single verb with no argument passes
unconditionally; a non-numeric argument fails validation. -/
theorem C1_validate_command_ranges (cfg : FlightControllerConfig) :
    (∀ v p val, isMovementVerb v = true → stoiChars p.data = some val →
      (validate_command cfg (v ++ " " ++ p) = true ↔
        cfg.min_distance ≤ val ∧ val ≤ cfg.max_distance)) ∧
    (∀ v p val, isRotationVerb v = true → stoiChars p.data = some val →
      (validate_command cfg (v ++ " " ++ p) = true ↔
        cfg.min_angle ≤ val ∧ val ≤ cfg.max_angle)) ∧
    (∀ cmd : String, ' ' ∉ cmd.data → validate_command cfg cmd = true) ∧
    (∀ v p : String, ' ' ∉ v.data → stoiChars p.data = none →
      validate_command cfg (v ++ " " ++ p) = false) := by
  refine ⟨?_, ?_, ?_, ?_⟩
  · intro v p val hm hp
    rw [validate_command_split cfg v p (isMovementVerb_no_space v hm), hp]
    simp only [hm, if_true]
    by_cases hcond : val < cfg.min_distance ∨ cfg.max_distance < val
    · simp only [hcond, if_true]
      constructor
      · intro h; exact absurd h (by simp)
      · intro h; omega
    · simp only [hcond, if_false]
      constructor
      · intro _; omega
      · intro _; trivial
  · intro v p val hr hp
    rw [validate_command_split cfg v p (isRotationVerb_no_space v hr), hp]
    simp only [isMovementVerb_of_rotation v hr, hr, if_true, if_false,
      Bool.false_eq_true]
    by_cases hcond : val < cfg.min_angle ∨ cfg.max_angle < val
    · simp only [hcond, if_true]
      constructor
      · intro h; exact absurd h (by simp)
      · intro h; omega
    · simp only [hcond, if_false]
      constructor
      · intro _; omega
      · intro _; trivial
  · exact fun cmd h => validate_command_no_space cfg cmd h
  · intro v p hv hp
    rw [validate_command_split cfg v p hv, hp]

/-- C1 witness: concrete instances of each part of the claim on the default
configuration. -/
theorem C1_validate_command_ranges_witness :
    validate_command defaultConfig "forward 100" = true ∧
    validate_command defaultConfig "cw 361" = false ∧
    validate_command defaultConfig "battery?" = true ∧
    validate_command defaultConfig "forward abc" = false := by
  refine ⟨?_, ?_, ?_, ?_⟩
  · exact ((C1_validate_command_ranges defaultConfig).1 "forward" "100" 100
      (by decide) (by decide)).mpr (by decide)
  · have h := (C1_validate_command_ranges defaultConfig).2.1 "cw" "361" 361
      (by decide) (by decide)
    by_cases hb : validate_command defaultConfig "cw 361" = true
    · exact absurd (h.mp hb) (by decide)
    · simpa using hb
  · exact (C1_validate_command_ranges defaultConfig).2.2.1 "battery?" (by decide)
  · exact (C1_validate_command_ranges defaultConfig).2.2.2 "forward" "abc"
      (by decide) (by decide)

/-- C10: a command string `verb argument` whose verb is not one of the six
movement verbs or the two rotation verbs passes validation whenever the
argument parses as an integer, regardless of its value, and when the
connection is ready such a command is published over the wire. -/
theorem C10_unrecognized_verb_no_range_check (cfg : FlightControllerConfig) :
    (∀ v p val, ' ' ∉ v.data → isMovementVerb v = false →
      isRotationVerb v = false → stoiChars p.data = some val →
      validate_command cfg (v ++ " " ++ p) = true) ∧
    (∀ st cmd, st.conn_state = ConnState.CONNECTED → st.hasChannel = true →
      validate_command cfg cmd = true →
      publish_command cfg (fun _ => true) st cmd = (st, [cmd])) := by
  constructor
  · intro v p val hv hm hr hp
    rw [validate_command_split cfg v p hv, hp]
    simp [hm, hr]
  · intro st cmd hc hch hval
    simp [publish_command, hval, hc, hch]

/-- C10 witness: `flip 99999` is accepted and, with the connection ready,
published. -/
theorem C10_unrecognized_verb_no_range_check_witness :
    validate_command defaultConfig "flip 99999" = true ∧
    publish_command defaultConfig (fun _ => true) initState "flip 99999" =
      (initState, ["flip 99999"]) := by
  constructor
  · exact (C10_unrecognized_verb_no_range_check defaultConfig).1 "flip" "99999"
      99999 (by decide) (by decide) (by decide) (by decide)
  · exact (C10_unrecognized_verb_no_range_check defaultConfig).2 initState
      "flip 99999" rfl rfl (by decide)

/-- C2: behaviour of the code at the failing input `forward 9999`
(`max_distance = 500`). `publish_command` neither publishes nor enqueues
the command and synthesizes the local reply `"invalid command"` with
`response_received_` set — but the execution loop clears both flags right
after the `publish_command` call, so the loop observes a timeout, retries
the full `max_command_retries = 3` budget, and only then issues `land`
and aborts; the synthesized reply is never classified. -/
theorem C2_invalid_command_retried_then_abort :
    publish_command defaultConfig (fun _ => true) initState "forward 9999" =
      ({ initState with
          last_response := "invalid command", response_received := true }, []) ∧
    (exec_command_loop defaultConfig "forward 9999"
        defaultConfig.max_command_retries initState
        [EnvEvent.timeout, EnvEvent.timeout, EnvEvent.timeout,
          EnvEvent.reply "ok"]).ok = false ∧
    (exec_command_loop defaultConfig "forward 9999"
        defaultConfig.max_command_retries initState
        [EnvEvent.timeout, EnvEvent.timeout, EnvEvent.timeout,
          EnvEvent.reply "ok"]).raised = false ∧
    (exec_command_loop defaultConfig "forward 9999"
        defaultConfig.max_command_retries initState
        [EnvEvent.timeout, EnvEvent.timeout, EnvEvent.timeout,
          EnvEvent.reply "ok"]).sent = ["land"] := by
  refine ⟨by decide, by decide, by decide, by decide⟩

theorem drainLoop_eq (pubOk : String → Bool) (l : List String) :
    drainLoop pubOk l = (l.takeWhile pubOk, l.dropWhile pubOk) := by
  induction l with
  | nil => rfl
  | cons c cs ih =>
    by_cases h : pubOk c
    · simp [drainLoop, h, ih, List.takeWhile_cons, List.dropWhile_cons]
    · simp [drainLoop, h, List.takeWhile_cons, List.dropWhile_cons]

/-- C3: on a transition into `Connected` the outbound queue is drained
with head-of-line discipline: the published commands form exactly the
longest prefix of the queue whose publishes succeed, the rest stays
queued in order, every published command's publish succeeded, and for a
queue `c1 :: c2 :: rest` the second element is published only after the
first publish succeeded and strictly after it. -/
theorem C3_outbound_queue_fifo (pubOk : String → Bool) (st : FCState)
    (hch : st.hasChannel = true) :
    (channel_onReady pubOk st).2 ++
        ((channel_onReady pubOk st).1).command_queue = st.command_queue ∧
    (channel_onReady pubOk st).2 = st.command_queue.takeWhile pubOk ∧
    ((channel_onReady pubOk st).1).command_queue =
      st.command_queue.dropWhile pubOk ∧
    (∀ c ∈ (channel_onReady pubOk st).2, pubOk c = true) ∧
    (∀ c1 c2 rest, st.command_queue = c1 :: c2 :: rest →
      2 ≤ (channel_onReady pubOk st).2.length →
      pubOk c1 = true ∧ (channel_onReady pubOk st).2.take 2 = [c1, c2]) := by
  have hr : channel_onReady pubOk st =
      ({ st with
          conn_state := ConnState.CONNECTED
          reconnect_attempts := 0
          command_queue := st.command_queue.dropWhile pubOk },
        st.command_queue.takeWhile pubOk) := by
    simp [channel_onReady, retry_queued_commands, hch, drainLoop_eq]
  refine ⟨?_, ?_, ?_, ?_, ?_⟩
  · rw [hr]; exact List.takeWhile_append_dropWhile pubOk st.command_queue
  · rw [hr]
  · rw [hr]
  · rw [hr]
    intro c hc
    exact List.mem_takeWhile_imp hc
  · intro c1 c2 rest hq hlen
    rw [hr] at hlen ⊢
    simp only [hq] at hlen ⊢
    by_cases h1 : pubOk c1
    · by_cases h2 : pubOk c2
      · simp [List.takeWhile_cons, h1, h2]
      · simp [List.takeWhile_cons, h1, h2] at hlen
    · simp [List.takeWhile_cons, h1] at hlen

/-- C3 witness: queue `["a", "b", "c"]` with the publish of `"c"` failing
drains to `["a", "b"]` published and `["c"]` retained. -/
theorem C3_outbound_queue_fifo_witness :
    (channel_onReady (fun s => !(s == "c"))
        ⟨ConnState.DISCONNECTED, true, ["a", "b", "c"], "", false, 4, false⟩).2 =
      ["a", "b"] ∧
    ((channel_onReady (fun s => !(s == "c"))
        ⟨ConnState.DISCONNECTED, true, ["a", "b", "c"], "", false, 4, false⟩).1).command_queue =
      ["c"] := by
  have h := C3_outbound_queue_fifo (fun s => !(s == "c"))
    ⟨ConnState.DISCONNECTED, true, ["a", "b", "c"], "", false, 4, false⟩ rfl
  refine ⟨?_, ?_⟩
  · rw [h.2.1]; decide
  · rw [h.2.2.1]; decide

/-- C4: a reconnect scheduled for attempt `k` (the current value of the
attempt counter, 0-indexed since the last successful connection) waits
`min(reconnect_delay_max, 2^k)` seconds and increments the counter; the
`onReady` handler of a successful `Connected` transition resets the
counter to zero. -/
theorem C4_reconnect_backoff (cfg : FlightControllerConfig) (ctorOk : Bool)
    (st : FCState) (hs : st.shutdownFlag = false)
    (hl : st.reconnect_attempts < cfg.max_reconnect_attempts) :
    (channel_onError cfg ctorOk st).delayOf =
      some (min cfg.reconnect_delay_max (2 ^ st.reconnect_attempts)) ∧
    (channel_onError cfg ctorOk st).attemptsAfter =
      some (st.reconnect_attempts + 1) ∧
    (∀ pubOk st0, ((channel_onReady pubOk st0).1).reconnect_attempts = 0) := by
  have hle : ¬ (cfg.max_reconnect_attempts ≤ st.reconnect_attempts) := by omega
  refine ⟨?_, ?_, ?_⟩
  · simp [channel_onError, hs, hle, OnErrorResult.delayOf]
  · simp only [channel_onError, hs, Bool.false_eq_true, if_false, hle]
    by_cases hc : ctorOk
    · simp [connect_sync, hc, OnErrorResult.attemptsAfter]
    · simp [connect_sync, hc, OnErrorResult.attemptsAfter]
  · intro pubOk st0
    by_cases hg : (st0.conn_state = ConnState.CONNECTED ∨
        st0.conn_state = ConnState.DISCONNECTED ∨
        st0.conn_state = ConnState.CONNECTING)
    · simp only [channel_onReady, retry_queued_commands]
      by_cases hch : st0.hasChannel = true
      · simp [hch]
      · simp [hch]
    · rcases st0 with ⟨cs, _, _, _, _, _, _⟩
      cases cs <;> simp at hg

/-- C4 witness: with the default configuration and three prior failures
the next delay is `min 16 (2^3) = 8` seconds and the counter moves to 4. -/
theorem C4_reconnect_backoff_witness :
    (channel_onError defaultConfig true
        ⟨ConnState.CONNECTED, true, [], "", false, 3, false⟩).delayOf = some 8 ∧
    (channel_onError defaultConfig true
        ⟨ConnState.CONNECTED, true, [], "", false, 3, false⟩).attemptsAfter =
      some 4 := by
  have h := C4_reconnect_backoff defaultConfig true
    ⟨ConnState.CONNECTED, true, [], "", false, 3, false⟩ rfl (by decide)
  refine ⟨?_, ?_⟩
  · rw [h.1]; decide
  · rw [h.2.1]

/-- C5: in pre-flight, each failed takeoff attempt that is followed by
another attempt is preceded by a landing command before the retry (the
non-exceptional takeoff-loop trace is `(takeoff land)* takeoff`); when
every attempt fails, `pre_flight_check` returns failure and a landing
command was sent at least once; on a takeoff reply of `"ok"` pre-flight
proceeds to the height check. -/
theorem C5_takeoff_retry_discipline (cfg : FlightControllerConfig) :
    (∀ n (st : FCState) (script : List EnvEvent),
      st.conn_state = ConnState.CONNECTED → st.hasChannel = true →
      (takeoff_loop cfg (n + 1) st script).raised = false →
      ∃ k, (takeoff_loop cfg (n + 1) st script).sent =
        (List.replicate k ["takeoff", "land"]).flatten ++ ["takeoff"]) ∧
    (∀ (st : FCState) (script : List EnvEvent) (s : String) (lvl : Int),
      st.conn_state = ConnState.CONNECTED → st.hasChannel = true →
      (command_exchange cfg st script "battery?").outcome = WaitOutcome.got s →
      stoiChars s.data = some lvl → cfg.min_battery_level ≤ lvl →
      (takeoff_loop cfg cfg.max_takeoff_attempts
          (command_exchange cfg st script "battery?").st
          (command_exchange cfg st script "battery?").script).raised = false →
      (takeoff_loop cfg cfg.max_takeoff_attempts
          (command_exchange cfg st script "battery?").st
          (command_exchange cfg st script "battery?").script).ok = false →
      (pre_flight_check cfg st script).ok = false ∧
        "land" ∈ (pre_flight_check cfg st script).sent) ∧
    (∀ (st : FCState) (script : List EnvEvent) (s : String) (lvl : Int),
      st.conn_state = ConnState.CONNECTED → st.hasChannel = true →
      (command_exchange cfg st script "battery?").outcome = WaitOutcome.got s →
      stoiChars s.data = some lvl → cfg.min_battery_level ≤ lvl →
      (takeoff_loop cfg cfg.max_takeoff_attempts
          (command_exchange cfg st script "battery?").st
          (command_exchange cfg st script "battery?").script).raised = false →
      (takeoff_loop cfg cfg.max_takeoff_attempts
          (command_exchange cfg st script "battery?").st
          (command_exchange cfg st script "battery?").script).ok = true →
      ∃ rest, (pre_flight_check cfg st script).sent =
        (command_exchange cfg st script "battery?").sent ++
          (takeoff_loop cfg cfg.max_takeoff_attempts
            (command_exchange cfg st script "battery?").st
            (command_exchange cfg st script "battery?").script).sent ++
          "height?" :: rest) := by
  refine ⟨fun n st script hc hch hr => takeoff_loop_shape cfg n st script hc hch hr,
    ?_, ?_⟩
  · intro st script s lvl hc hch ho hlv hmin htr hto
    unfold pre_flight_check
    revert ho htr hto
    rcases hbe : command_exchange cfg st script "battery?" with ⟨bout, bst, bsc, bsent⟩
    intro ho htr hto
    dsimp at ho htr hto ⊢
    subst ho
    dsimp only
    have hbc : bst.conn_state = ConnState.CONNECTED := by
      have h2 := (command_exchange_preserves cfg st script "battery?").1
      rw [hbe] at h2
      exact h2.trans hc
    have hbch : bst.hasChannel = true := by
      have h2 := (command_exchange_preserves cfg st script "battery?").2
      rw [hbe] at h2
      exact h2.trans hch
    have htc : ((takeoff_loop cfg cfg.max_takeoff_attempts bst bsc).st).conn_state =
        ConnState.CONNECTED :=
      (takeoff_loop_preserves cfg cfg.max_takeoff_attempts bst bsc).1.trans hbc
    have htch : ((takeoff_loop cfg cfg.max_takeoff_attempts bst bsc).st).hasChannel =
        true :=
      (takeoff_loop_preserves cfg cfg.max_takeoff_attempts bst bsc).2.trans hbch
    have hnlt : ¬ (lvl < cfg.min_battery_level) := by omega
    have hlsent := issue_land_command_sent cfg
      (takeoff_loop cfg cfg.max_takeoff_attempts bst bsc).st
      (takeoff_loop cfg cfg.max_takeoff_attempts bst bsc).script htc htch
    rw [hlv]
    simp only [hnlt, if_false, htr, hto]
    dsimp
    simp [hlsent]
  · intro st script s lvl hc hch ho hlv hmin htr hto
    unfold pre_flight_check
    revert ho htr hto
    rcases hbe : command_exchange cfg st script "battery?" with ⟨bout, bst, bsc, bsent⟩
    intro ho htr hto
    dsimp at ho htr hto ⊢
    subst ho
    dsimp only
    have hbc : bst.conn_state = ConnState.CONNECTED := by
      have h2 := (command_exchange_preserves cfg st script "battery?").1
      rw [hbe] at h2
      exact h2.trans hc
    have hbch : bst.hasChannel = true := by
      have h2 := (command_exchange_preserves cfg st script "battery?").2
      rw [hbe] at h2
      exact h2.trans hch
    have htc : ((takeoff_loop cfg cfg.max_takeoff_attempts bst bsc).st).conn_state =
        ConnState.CONNECTED :=
      (takeoff_loop_preserves cfg cfg.max_takeoff_attempts bst bsc).1.trans hbc
    have htch : ((takeoff_loop cfg cfg.max_takeoff_attempts bst bsc).st).hasChannel =
        true :=
      (takeoff_loop_preserves cfg cfg.max_takeoff_attempts bst bsc).2.trans hbch
    have hnlt : ¬ (lvl < cfg.min_battery_level) := by omega
    have hv2 : validate_command cfg "height?" = true :=
      validate_command_no_space cfg "height?" (by decide)
    have hhsent := command_exchange_sent cfg
      (takeoff_loop cfg cfg.max_takeoff_attempts bst bsc).st
      (takeoff_loop cfg cfg.max_takeoff_attempts bst bsc).script "height?" htc htch hv2
    rw [hlv]
    simp only [hnlt, if_false, htr, hto]
    dsimp
    revert hhsent
    rcases hhe : command_exchange cfg
        (takeoff_loop cfg cfg.max_takeoff_attempts bst bsc).st
        (takeoff_loop cfg cfg.max_takeoff_attempts bst bsc).script "height?" with
      ⟨hout, hst, hsc, hsent2⟩
    intro hhsent
    dsimp at hhsent
    cases hout
    case raised =>
      exact ⟨[], by simp [hhsent]⟩
    case noResponse =>
      exact ⟨(issue_land_command cfg hst hsc).sent, by simp [hhsent]⟩
    case got hs =>
      rcases hsi : stoiChars hs.data with _ | ht2
      · exact ⟨(issue_land_command cfg hst hsc).sent, by simp [hsi, hhsent]⟩
      · by_cases hhlt : ht2 < cfg.min_height_after_takeoff
        · exact ⟨(issue_land_command cfg hst hsc).sent,
            by simp [hsi, hhlt, hhsent]⟩
        · exact ⟨[], by simp [hsi, hhlt, hhsent]⟩

/-- C5 witness: battery `"50"`, then a timed-out takeoff (landed, retried)
and a takeoff answered `"error"`; with `max_takeoff_attempts = 2`
pre-flight fails and the trace shows a landing after each failed attempt. -/
theorem C5_takeoff_retry_discipline_witness :
    (pre_flight_check defaultConfig initState
        [EnvEvent.reply "50", EnvEvent.timeout, EnvEvent.reply "ok",
          EnvEvent.reply "error", EnvEvent.reply "ok"]).ok = false ∧
    "land" ∈ (pre_flight_check defaultConfig initState
        [EnvEvent.reply "50", EnvEvent.timeout, EnvEvent.reply "ok",
          EnvEvent.reply "error", EnvEvent.reply "ok"]).sent :=
  (C5_takeoff_retry_discipline defaultConfig).2.1 initState
    [EnvEvent.reply "50", EnvEvent.timeout, EnvEvent.reply "ok",
      EnvEvent.reply "error", EnvEvent.reply "ok"] "50" 50
    rfl rfl (by decide) (by decide) (by decide) (by decide) (by decide)

/-- C6: for the `land` command a device reply of `"error"` is classified
as success, both in `issue_land_command` (which accepts `"ok"` or
`"error"`) and in the main execution loop's success test; for every other
command `"error"` is not a success reply. -/
theorem C6_land_error_is_success :
    (∀ cfg st script s,
      (command_exchange cfg st script "land").outcome = WaitOutcome.got s →
      landReplyOk s = true → (issue_land_command cfg st script).ok = true) ∧
    landReplyOk "error" = true ∧
    isSuccessReply "land" "error" = true ∧
    (∀ cmd : String, cmd ≠ "land" → isSuccessReply cmd "error" = false) := by
  refine ⟨?_, by decide, by decide, ?_⟩
  · intro cfg st script s ho hok
    rcases hce : command_exchange cfg st script "land" with ⟨out, st1, sc1, sent1⟩
    rw [hce] at ho
    dsimp at ho
    subst ho
    simp [issue_land_command, hce, hok]
  · intro cmd h
    have h1 : (cmd == "land") = false := by
      simp only [beq_eq_false_iff_ne, ne_eq]
      exact h
    simp [isSuccessReply, h1]

/-- C6 witness: a `land` exchange answered `"error"` succeeds, while
`"error"` is not a success reply for `forward 20`. -/
theorem C6_land_error_is_success_witness :
    (issue_land_command defaultConfig initState
        [EnvEvent.reply "error"]).ok = true ∧
    isSuccessReply "forward 20" "error" = false := by
  refine ⟨?_, ?_⟩
  · exact C6_land_error_is_success.1 defaultConfig initState
      [EnvEvent.reply "error"] "error" rfl (by decide)
  · exact C6_land_error_is_success.2.2.2 "forward 20" (by decide)

/-- C7 counterexample: a flight in progress (battery `"100"`, takeoff
`"ok"`, height `"5"`), then the reconnect-exhausted `runtime_error` is
raised during the wait for the first pattern command. The process
terminates with exit status 1 and no landing command is ever published:
the claim that a safe landing is still attempted on the connection-fatal
path is false. -/
theorem C7_counterexample_no_landing_on_fatal :
    (run defaultConfig initState
        [EnvEvent.reply "100", EnvEvent.reply "ok", EnvEvent.reply "5",
          EnvEvent.connFatal]).raised = true ∧
    (run defaultConfig initState
        [EnvEvent.reply "100", EnvEvent.reply "ok", EnvEvent.reply "5",
          EnvEvent.connFatal]).sent =
      ["battery?", "takeoff", "height?", "forward 20"] ∧
    "land" ∉ (run defaultConfig initState
        [EnvEvent.reply "100", EnvEvent.reply "ok", EnvEvent.reply "5",
          EnvEvent.connFatal]).sent ∧
    main_model defaultConfig
        [EnvEvent.reply "100", EnvEvent.reply "ok", EnvEvent.reply "5",
          EnvEvent.connFatal] =
      (1, ["battery?", "takeoff", "height?", "forward 20"]) := by
  refine ⟨by decide, by decide, by decide, by decide⟩

/-- C7 amended: once the reconnect attempt counter reaches the configured
maximum (the handler checks `counter ≥ max` before each retry), the
`onError` handler stops retrying and throws a process-fatal
`runtime_error`; the process then exits with status 1 without publishing
anything further — in particular no landing command is attempted on the
connection-fatal path. -/
theorem C7_fatal_without_landing (cfg : FlightControllerConfig)
    (ctorOk : Bool) (st : FCState) (hs : st.shutdownFlag = false)
    (hl : cfg.max_reconnect_attempts ≤ st.reconnect_attempts) :
    channel_onError cfg ctorOk st = OnErrorResult.fatalExit ∧
    (∀ script, (run cfg initState script).raised = true →
      main_model cfg script = (1, (run cfg initState script).sent)) := by
  constructor
  · simp [channel_onError, hs, hl]
  · intro script hr
    simp [main_model, hr]

/-- C7 witness: with the default configuration the fifth channel error
with the counter already at 5 is fatal. -/
theorem C7_fatal_without_landing_witness :
    channel_onError defaultConfig true
      ⟨ConnState.CONNECTED, true, [], "", false, 5, false⟩ =
      OnErrorResult.fatalExit :=
  (C7_fatal_without_landing defaultConfig true
    ⟨ConnState.CONNECTED, true, [], "", false, 5, false⟩ rfl (by decide)).1

/-- C8 counterexample: battery reply `"15"` with `min_battery_level = 20`
makes pre-flight fail; a landing command is issued; `run` returns false —
and `main` still exits with status 0, contradicting the claim that every
unrecoverable top-level failure exits non-zero. -/
theorem C8_counterexample_zero_exit_on_failure :
    (run defaultConfig initState
        [EnvEvent.reply "15", EnvEvent.reply "ok"]).ok = false ∧
    (run defaultConfig initState
        [EnvEvent.reply "15", EnvEvent.reply "ok"]).raised = false ∧
    "land" ∈ (run defaultConfig initState
        [EnvEvent.reply "15", EnvEvent.reply "ok"]).sent ∧
    main_model defaultConfig [EnvEvent.reply "15", EnvEvent.reply "ok"] =
      (0, ["battery?", "land"]) := by
  refine ⟨by decide, by decide, by decide, by decide⟩

/-- C8 amended: the process exits non-zero exactly when a fatal exception
propagates out of `run` (e.g. reconnect attempts exhausted); when `run`
merely returns failure (pre-flight failure or an aborted sequence) the
process prints a failure message but still exits with status 0, and a
fully successful sequence also exits 0. -/
theorem C8_exit_code_semantics (cfg : FlightControllerConfig)
    (script : List EnvEvent) :
    ((main_model cfg script).1 = 1 ↔
      (run cfg initState script).raised = true) ∧
    ((main_model cfg script).1 = 0 ↔
      (run cfg initState script).raised = false) ∧
    ((run cfg initState script).ok = false →
      (run cfg initState script).raised = false →
      (main_model cfg script).1 = 0) := by
  by_cases hr : (run cfg initState script).raised = true
  · simp [main_model, hr]
  · simp only [Bool.not_eq_true] at hr
    simp [main_model, hr]

/-- C8 witness: the pre-flight-failure scenario exits 0. -/
theorem C8_exit_code_semantics_witness :
    (main_model defaultConfig
        [EnvEvent.reply "15", EnvEvent.reply "ok"]).1 = 0 :=
  (C8_exit_code_semantics defaultConfig
    [EnvEvent.reply "15", EnvEvent.reply "ok"]).2.2 (by decide) (by decide)

/-- C9: after a channel error the queues are never re-declared. The
`declare_queues()` call in the `onError` handler is guarded by
`conn_state_ == CONNECTED`, but immediately after `connect_to_rabbitmq`
returns the state is still `CONNECTING` (the `onReady` callback can only
fire once the event loop is pumped again), so the guard is always false:
on no reconnect is `declare_queues` reached, and the `onReady` handler
itself only drains the queue. -/
theorem C9_queues_not_redeclared_on_reconnect :
    (∀ cfg ctorOk st,
      ((channel_onError cfg ctorOk st).redeclaredFlag).getD false = false) ∧
    (channel_onError defaultConfig true
        ⟨ConnState.CONNECTED, true, [], "", false, 2, false⟩).redeclaredFlag =
      some false := by
  constructor
  · intro cfg ctorOk st
    unfold channel_onError
    by_cases hs : st.shutdownFlag = true
    · simp [hs, OnErrorResult.redeclaredFlag]
    · simp only [hs, if_false]
      by_cases hle : cfg.max_reconnect_attempts ≤ st.reconnect_attempts
      · simp [hle, OnErrorResult.redeclaredFlag]
      · by_cases hc : ctorOk
        · simp [hle, connect_sync, hc, OnErrorResult.redeclaredFlag]
        · simp [hle, connect_sync, hc, OnErrorResult.redeclaredFlag]
  · decide

end TelloFC
